import Mathlib

/-!
Shallow embedding of the decision engine (`decision_engine/recommendation.py`)
and the device orchestration layer (`device_control/device_manager.py`) of the
angel-interactive-assistant repository.

Python floats are modelled as rationals (`ℚ`), Python dicts either as
structures (when the key set is fixed by the source) or as association lists
(`List (String × _)`); `random.choice` is modelled by an explicit choice
function passed as a parameter; wall-clock time is passed explicitly.
-/

namespace Angel

/-- Heterogeneous values stored in the `params` dict of a recommendation and
in device status dicts: strings and numbers. -/
inductive Value where
  | str (s : String)
  | num (q : ℚ)
  deriving DecidableEq

/-- Result of `RecommendationEngine.get_time_context`: coarse time-of-day
label, hour, weekday (0 = Monday) and weekend flag. -/
structure TimeContext where
  time_of_day : String
  hour : ℕ
  weekday : ℕ
  weekend : Bool
  deriving DecidableEq

/-- `get_time_context`, parameterized by the wall clock (hour, minute,
weekday).  The Python code compares `datetime.time` values; comparison of
times with zero seconds is comparison of minutes-since-midnight.  The
time-of-day chain mirrors the conditional expression on line 78 of
`recommendation.py`; `weekend` is `weekday >= 5`. -/
def getTimeContext (hour minute weekday : ℕ) : TimeContext :=
  let m := hour * 60 + minute
  let tod :=
    if 360 ≤ m ∧ m < 720 then "morning"
    else if 720 ≤ m ∧ m < 1080 then "afternoon"
    else if 1080 ≤ m ∧ m < 1320 then "evening"
    else "night"
  { time_of_day := tod, hour := hour, weekday := weekday,
    weekend := decide (5 ≤ weekday) }

/-- The `preferences` sub-dict of a user profile (see `load_user_profile`). -/
structure Preferences where
  music_genres : List String
  tv_programs : List String
  story_topics : List String
  deriving DecidableEq

/-- Entry appended to `activity_history` by `analyze_activity`. -/
structure ActivityRecord where
  timestamp : String
  activity : String
  confidence : ℚ
  deriving DecidableEq

/-- User feedback dict; the only field the engine reads is `accepted`
(`_adjust_weights_from_feedback`, line 367). -/
structure Feedback where
  accepted : Bool
  deriving DecidableEq

/-- A user profile as built by `load_user_profile`. -/
structure UserProfile where
  id : String
  preferences : Preferences
  activity_history : List ActivityRecord
  feedback_history : List (String × Feedback)
  deriving DecidableEq

/-- A single recommendation dict as built by `_get_recommendation_details`. -/
structure Recommendation where
  type : String
  priority : ℚ
  params : List (String × Value)
  deriving DecidableEq

/-- A batch stored in `recommendation_history` by `get_recommendations`
(lines 148-154).  Python dicts are open, so a hypothetical `id` key is
modelled as an `Option`; `get_recommendations` never sets it. -/
structure Batch where
  id : Option String
  timestamp : String
  activity : String
  confidence : ℚ
  recommendations : List Recommendation
  deriving DecidableEq

/-- The configuration fields the engine reads (`__init__`, lines 25-28, plus
the playlists dict and the conversation turn limit used by
`_get_recommendation_details`). -/
structure EngineConfig where
  decision_rules : List (String × List String)
  threshold_confidence : ℚ
  learning_rate : ℚ
  user_feedback_weight : ℚ
  playlists : List (String × String)
  conversation_max_turns : ℕ
  deriving DecidableEq

/-- Mutable state of `RecommendationEngine` (lines 31-33). -/
structure EngineState where
  user_profile : Option UserProfile
  last_recommendations : Option Batch
  recommendation_history : List Batch
  deriving DecidableEq

/-- An incoming activity observation dict; both fields may be absent
(`activity_data.get(...)`). -/
structure ActivityData where
  activity : Option String
  confidence : Option ℚ
  deriving DecidableEq

/-- `load_user_profile`: the simulated placeholder profile (lines 49-58). -/
def loadUserProfile (userId : String) : UserProfile :=
  { id := userId
    preferences :=
      { music_genres := ["classique", "jazz", "ambiance"]
        tv_programs := ["documentaires", "films", "actualités"]
        story_topics := ["aventure", "histoire", "science"] }
    activity_history := []
    feedback_history := [] }

/-- `analyze_activity` (lines 84-106): extract activity (default
`"inconnu"`) and confidence (default `0.0`), append a record to the active
profile when one is loaded, and return the pair. -/
def analyzeActivity (now : String) (st : EngineState) (d : ActivityData) :
    (String × ℚ) × EngineState :=
  let activity := d.activity.getD "inconnu"
  let confidence := d.confidence.getD 0
  let st' :=
    match st.user_profile with
    | some p =>
        let entry : ActivityRecord :=
          { timestamp := now, activity := activity, confidence := confidence }
        let p' : UserProfile :=
          { p with activity_history := p.activity_history ++ [entry] }
        { st with user_profile := some p' }
    | none => st
  ((activity, confidence), st')

/-- The `base_priorities` table of `_calculate_priority` (lines 301-315);
an unknown type gets `0.5`. -/
def basePriority (recType : String) : ℚ :=
  if recType = "diffuser_musique" then 7/10
  else if recType = "diffuser_musique_classique" then 7/10
  else if recType = "raconter_histoire" then 8/10
  else if recType = "engager_conversation" then 9/10
  else if recType = "recommander_programme" then 6/10
  else if recType = "recommander_documentaire" then 6/10
  else if recType = "suggerer_activite" then 5/10
  else if recType = "suggerer_boisson" then 4/10
  else if recType = "suggerer_actualites" then 5/10
  else if recType = "suggerer_activite_exterieure" then 5/10
  else 5/10

/-- Python slice `l[-n:]`: the last `n` elements (the whole list when it is
shorter). -/
def lastN {α : Type} (n : ℕ) (l : List α) : List α :=
  l.drop (l.length - n)

/-- The flattened type list of the last 3 stored batches
(`flat_list`, lines 319-320). -/
def recentTypes (history : List Batch) : List String :=
  (lastN 3 history).flatMap (fun b => b.recommendations.map (fun r => r.type))

/-- Lines 315-326 of `_calculate_priority`: base priority followed by the
recency decay over the last 3 batches, floored at `0.1`; this is the value
the affinity boost is applied to. -/
def priorityAfterDecay (history : List Batch) (recType : String) : ℚ :=
  let priority := basePriority recType
  if history.length > 0 then
    let flat := recentTypes history
    if recType ∈ flat then
      max (1/10) (priority - (1/10) * (flat.count recType : ℚ))
    else priority
  else priority

/-- Decay of a base priority as a function of the occurrence count alone:
no decay at count `0`, otherwise `max 0.1 (base - 0.1 * count)`. -/
def decayedAt (base : ℚ) (count : ℕ) : ℚ :=
  if count = 0 then base else max (1/10) (base - (1/10) * (count : ℚ))

/-- `_calculate_priority` (lines 289-337): decayed base priority, activity
affinity boost, final clamp into `[0, 1]`. -/
def calculatePriority (history : List Batch) (recType activity : String) : ℚ :=
  let priority := priorityAfterDecay history recType
  let priority :=
    if activity = "manger" ∧
        (recType = "diffuser_musique" ∨ recType = "diffuser_musique_classique") then
      priority + 2/10
    else if activity = "inactif" ∧
        (recType = "raconter_histoire" ∨ recType = "engager_conversation") then
      priority + 3/10
    else priority
  min 1 (max 0 priority)

/-- The night block of `_adjust_for_context` (lines 173-180): remove the
first occurrence of `diffuser_musique` (Python `list.remove`) when present
and the activity is not `"manger"`, then append `raconter_histoire` when
absent and the activity is `"inactif"`. -/
def nightAdjust (recs : List String) (activity : String) : List String :=
  let b :=
    if "diffuser_musique" ∈ recs ∧ activity ≠ "manger" then
      recs.erase "diffuser_musique"
    else recs
  if "raconter_histoire" ∉ b ∧ activity = "inactif" then
    b ++ ["raconter_histoire"]
  else b

/-- The morning block of `_adjust_for_context` (lines 182-185). -/
def morningAdjust (recs : List String) (activity : String) : List String :=
  if "suggerer_actualites" ∉ recs ∧ activity = "inactif" then
    recs ++ ["suggerer_actualites"]
  else recs

/-- The weekend block of `_adjust_for_context` (lines 187-190). -/
def weekendAdjust (recs : List String) (activity : String) : List String :=
  if "suggerer_activite_exterieure" ∉ recs ∧ activity = "inactif" then
    recs ++ ["suggerer_activite_exterieure"]
  else recs

/-- `_adjust_for_context` (lines 158-192): the night/morning block chosen by
`time_of_day`, then the weekend block. -/
def adjustForContext (recs : List String) (ctx : TimeContext)
    (activity : String) : List String :=
  let a :=
    if ctx.time_of_day = "night" then nightAdjust recs activity
    else if ctx.time_of_day = "morning" then morningAdjust recs activity
    else recs
  if ctx.weekend then weekendAdjust a activity else a

/-- Python `l[l.index(a)] = b`: replace the first occurrence of `a` by `b`. -/
def replaceFirst : List String → String → String → List String
  | [], _, _ => []
  | x :: xs, a, b => if x = a then b :: xs else x :: replaceFirst xs a b

/-- `_personalize_recommendations` (lines 194-216): substitute the first
`recommander_programme` by `recommander_documentaire` when the profile
prefers documentaries, then the first `diffuser_musique` by
`diffuser_musique_classique` when the profile prefers classical music. -/
def personalizeRecommendations (p : UserProfile) (recs : List String) :
    List String :=
  let p1 :=
    if "recommander_programme" ∈ recs ∧
        "documentaires" ∈ p.preferences.tv_programs then
      replaceFirst recs "recommander_programme" "recommander_documentaire"
    else recs
  if "diffuser_musique" ∈ p1 ∧ "classique" ∈ p.preferences.music_genres then
    replaceFirst p1 "diffuser_musique" "diffuser_musique_classique"
  else p1

/-- `_get_recommendation_details` (lines 218-287).  `random.choice` is
modelled by the `choice` parameter; priorities are computed against the
engine state exactly as in the source. -/
def recommendationDetails (cfg : EngineConfig) (st : EngineState)
    (choice : List String → String) (recType activity : String) :
    Recommendation :=
  let priority := calculatePriority st.recommendation_history recType activity
  let params : List (String × Value) :=
    if recType = "diffuser_musique" ∨ recType = "diffuser_musique_classique" then
      let genres :=
        if recType = "diffuser_musique_classique" then ["classique"]
        else ["ambiance", "jazz", "pop"]
      let playlistKey := if activity = "manger" then "repas" else "ambiance"
      [("genre", Value.str (choice genres)),
       ("playlist",
        Value.str ((cfg.playlists.lookup playlistKey).getD "playlist_ambiance")),
       ("volume", Value.num (if activity = "manger" then 40 else 30))]
    else if recType = "raconter_histoire" then
      let topics0 :=
        match st.user_profile with
        | some p => p.preferences.story_topics
        | none => []
      let topics :=
        if topics0 = [] then ["aventure", "humour", "culture"] else topics0
      [("topic", Value.str (choice topics)),
       ("duration_min", Value.num 2),
       ("complexity", Value.str "medium")]
    else if recType = "engager_conversation" then
      let topics0 :=
        match st.user_profile with
        | some p => p.preferences.tv_programs ++ p.preferences.story_topics
        | none => []
      let topics :=
        if topics0 = [] then ["actualités", "santé", "loisirs", "culture"]
        else topics0
      [("topic", Value.str (choice topics)),
       ("style", Value.str "casual"),
       ("max_turns", Value.num (cfg.conversation_max_turns : ℚ))]
    else if recType = "recommander_programme" ∨
        recType = "recommander_documentaire" then
      let category :=
        if recType = "recommander_documentaire" then "documentaire"
        else "divertissement"
      [("category", Value.str category),
       ("duration_min", Value.num 30),
       ("rating_min", Value.num 4)]
    else []
  { type := recType, priority := priority, params := params }

/-- `decision_rules.get(activity, decision_rules["default"])` (line 130);
configurations are required to carry a `"default"` entry (spec section 6). -/
def lookupRules (rules : List (String × List String)) (activity : String) :
    List String :=
  match rules.lookup activity with
  | some l => l
  | none => (rules.lookup "default").getD []

/-- Lines 129-145 of `get_recommendations`, parameterized by the resolved
activity: rule lookup, context adjustment, personalization when a profile is
loaded, detail expansion. -/
def recommendFrom (cfg : EngineConfig) (ctx : TimeContext)
    (choice : List String → String) (st : EngineState) (activity : String) :
    List Recommendation :=
  let ruleBased := lookupRules cfg.decision_rules activity
  let contextAdjusted := adjustForContext ruleBased ctx activity
  let personalized :=
    match st.user_profile with
    | some p => personalizeRecommendations p contextAdjusted
    | none => contextAdjusted
  personalized.map (fun t => recommendationDetails cfg st choice t activity)

/-- `get_recommendations` (lines 108-156): analyze, override the activity to
`"default"` below the confidence threshold, produce the recommendation list,
store it as the last batch and append it to the history. -/
def getRecommendations (cfg : EngineConfig) (now : String)
    (ctx : TimeContext) (choice : List String → String) (st : EngineState)
    (d : ActivityData) : List Recommendation × EngineState :=
  let res := analyzeActivity now st d
  let confidence := res.1.2
  let st1 := res.2
  let activity :=
    if confidence < cfg.threshold_confidence then "default" else res.1.1
  let recs := recommendFrom cfg ctx choice st1 activity
  let batch : Batch :=
    { id := none, timestamp := now, activity := activity,
      confidence := confidence, recommendations := recs }
  (recs,
   { st1 with last_recommendations := some batch,
              recommendation_history := st1.recommendation_history ++ [batch] })

/-- Python dict assignment `d[k] = v` on an association list: overwrite the
existing binding in place, otherwise append. -/
def assocSet (l : List (String × Feedback)) (k : String) (v : Feedback) :
    List (String × Feedback) :=
  if l.any (fun q => q.1 = k) then
    l.map (fun q => if q.1 = k then (k, v) else q)
  else l ++ [(k, v)]

/-- `_adjust_weights_from_feedback` (lines 358-377): the body only logs, so
the engine state is unchanged. -/
def adjustWeightsFromFeedback (st : EngineState) (_rec : Batch)
    (_fb : Feedback) : EngineState :=
  st

/-- `process_feedback` (lines 339-356): find the first historical batch whose
`id` equals the supplied id; when found, record the feedback in the active
profile and run the weight-adjustment hook; otherwise do nothing. -/
def processFeedback (st : EngineState) (recommendationId : String)
    (fb : Feedback) : EngineState :=
  match st.recommendation_history.find?
      (fun b => b.id = some recommendationId) with
  | some b =>
      let st' :=
        match st.user_profile with
        | some p =>
            let p' : UserProfile :=
              { p with feedback_history :=
                  assocSet p.feedback_history recommendationId fb }
            { st with user_profile := some p' }
        | none => st
      adjustWeightsFromFeedback st' b fb
  | none => st

/-- A TV program dict; the only key read by the scenario code is `id`
(`execute_scenario`, line 707). -/
structure Program where
  id : String
  deriving DecidableEq

/-- Outcomes of the concrete controller methods of `device_manager.py`
(TVController, MusicPlayerController, LightController).  Each method wraps an
HTTP transport call; its observable outcome is abstracted as a function.
Status dicts are association lists; a failed status fetch is a dict carrying
an `"error"` key (for example `TVController.get_status`, lines 92-109). -/
structure DeviceOracle where
  turnOn : String → Bool
  turnOff : String → Bool
  getStatus : String → List (String × Value)
  changeChannel : String → Bool
  tvSetVolume : Int → Bool
  getChannels : List (List (String × Value))
  searchPrograms : Option String → Option String → List Program
  playProgram : String → Bool
  playPlaylist : String → Bool
  musicSetVolume : Int → Bool
  playGenre : String → Bool
  setScene : String → Bool
  setAllLights : List (String × Value) → Bool

/-- The `params` dict of `execute_action`; every key the dispatcher reads is
optional. -/
structure ActionParams where
  channel_id : Option String := none
  volume : Option Int := none
  category : Option String := none
  query : Option String := none
  program_id : Option String := none
  playlist_name : Option String := none
  genre : Option String := none
  scene_name : Option String := none
  state : Option (List (String × Value)) := none
  deriving DecidableEq

/-- The result dict of `execute_action`: a `success` flag plus whichever
payload key the taken branch adds. -/
structure ActionResult where
  success : Bool
  error : Option String := none
  status : Option (List (String × Value)) := none
  channels : Option (List (List (String × Value))) := none
  programs : Option (List Program) := none
  deriving DecidableEq

/-- Python truthiness test `not s` for an optional string parameter: absent
or empty counts as missing. -/
def strFalsy : Option String → Bool
  | none => true
  | some s => s = ""

/-- Python truthiness filter used by `TVController.search_programs`
(lines 191-195): an absent or empty string is not forwarded. -/
def truthyOpt : Option String → Option String
  | none => none
  | some s => if s = "" then none else some s

/-- The registry and configuration of `DeviceManager`: which device types
got a controller (`device_controllers`, in insertion order) and the playlist
name table of the music player. -/
structure DeviceManager where
  registry : List String
  playlists : List (String × String)

/-- `DeviceManager.execute_action` (lines 568-677): registry check, the
three generic actions, then the device-specific dispatch with its parameter
validation; an unknown combination is a reported error.  Volume clamping
into `[0, 100]` happens inside the controllers (lines 145, 349); playlist
name resolution happens inside `MusicPlayerController.play_playlist`
(lines 319-322). -/
def executeAction (dm : DeviceManager) (orc : DeviceOracle)
    (actionType deviceType : String) (params : ActionParams) : ActionResult :=
  if deviceType ∉ dm.registry then
    { success := false,
      error := some ("Appareil non pris en charge: " ++ deviceType) }
  else if actionType = "turn_on" then { success := orc.turnOn deviceType }
  else if actionType = "turn_off" then { success := orc.turnOff deviceType }
  else if actionType = "get_status" then
    { success := true, status := some (orc.getStatus deviceType) }
  else if deviceType = "tv" then
    if actionType = "change_channel" then
      if strFalsy params.channel_id then
        { success := false, error := some "ID de chaine requis" }
      else { success := orc.changeChannel (params.channel_id.getD "") }
    else if actionType = "set_volume" then
      match params.volume with
      | none => { success := false, error := some "Volume requis" }
      | some v => { success := orc.tvSetVolume (max 0 (min 100 v)) }
    else if actionType = "get_channels" then
      { success := true, channels := some orc.getChannels }
    else if actionType = "search_programs" then
      { success := true,
        programs := some (orc.searchPrograms (truthyOpt params.category)
          (truthyOpt params.query)) }
    else if actionType = "play_program" then
      if strFalsy params.program_id then
        { success := false, error := some "ID de programme requis" }
      else { success := orc.playProgram (params.program_id.getD "") }
    else
      { success := false,
        error := some ("Action non prise en charge: " ++ actionType) }
  else if deviceType = "music_player" then
    if actionType = "play_playlist" then
      if strFalsy params.playlist_name then
        { success := false, error := some "Nom de playlist requis" }
      else
        let nm := params.playlist_name.getD ""
        { success := orc.playPlaylist ((dm.playlists.lookup nm).getD nm) }
    else if actionType = "set_volume" then
      match params.volume with
      | none => { success := false, error := some "Volume requis" }
      | some v => { success := orc.musicSetVolume (max 0 (min 100 v)) }
    else if actionType = "play_genre" then
      if strFalsy params.genre then
        { success := false, error := some "Genre requis" }
      else { success := orc.playGenre (params.genre.getD "") }
    else
      { success := false,
        error := some ("Action non prise en charge: " ++ actionType) }
  else if deviceType = "lights" then
    if actionType = "set_scene" then
      if strFalsy params.scene_name then
        { success := false, error := some "Nom de scene requis" }
      else { success := orc.setScene (params.scene_name.getD "") }
    else if actionType = "set_state" then
      match params.state with
      | none => { success := false, error := some "Etat requis" }
      | some [] => { success := false, error := some "Etat requis" }
      | some s => { success := orc.setAllLights s }
    else
      { success := false,
        error := some ("Action non prise en charge: " ++ actionType) }
  else
    { success := false,
      error := some ("Action non prise en charge: " ++ actionType) }

/-- The `params` dict of `execute_scenario`. -/
structure ScenarioParams where
  category : Option String := none
  volume : Option Int := none
  playlist : Option String := none
  genre : Option String := none
  deriving DecidableEq

/-- The result dict of `execute_scenario`: aggregated success flag and the
per-step result map in insertion order. -/
structure ScenarioResult where
  success : Bool
  results : List (String × ActionResult) := []
  error : Option String := none

/-- `all(r.get("success", False) for r in results.values())`. -/
def allSucceeded (results : List (String × ActionResult)) : Bool :=
  results.all (fun kv => kv.2.success)

/-- `DeviceManager.execute_scenario` (lines 679-770).  For `movie_time` the
play step is appended only when the program search reported success with a
non-empty program list (Python truthiness of the list, line 703). -/
def executeScenario (dm : DeviceManager) (orc : DeviceOracle)
    (name : String) (params : ScenarioParams) : ScenarioResult :=
  if name = "movie_time" then
    let rLights := executeAction dm orc "set_scene" "lights"
      { scene_name := some "movie" }
    let rTv := executeAction dm orc "turn_on" "tv" {}
    let category := params.category.getD "film"
    let programs := executeAction dm orc "search_programs" "tv"
      { category := some category }
    let results0 := [("lights", rLights), ("tv", rTv)]
    let results1 :=
      match programs.programs with
      | some (p :: _) =>
          if programs.success then
            results0 ++
              [("program", executeAction dm orc "play_program" "tv"
                { program_id := some p.id })]
          else results0
      | _ => results0
    let vol := params.volume.getD 50
    let results2 := results1 ++
      [("volume", executeAction dm orc "set_volume" "tv"
        { volume := some vol })]
    { success := allSucceeded results2, results := results2 }
  else if name = "dinner_music" then
    let rLights := executeAction dm orc "set_scene" "lights"
      { scene_name := some "dinner" }
    let rMusic := executeAction dm orc "turn_on" "music_player" {}
    let playlist := params.playlist.getD "repas"
    let rPlaylist := executeAction dm orc "play_playlist" "music_player"
      { playlist_name := some playlist }
    let vol := params.volume.getD 30
    let rVol := executeAction dm orc "set_volume" "music_player"
      { volume := some vol }
    let results := [("lights", rLights), ("music", rMusic),
      ("playlist", rPlaylist), ("volume", rVol)]
    { success := allSucceeded results, results := results }
  else if name = "relax_mode" then
    let rLights := executeAction dm orc "set_scene" "lights"
      { scene_name := some "relax" }
    let rMusic := executeAction dm orc "turn_on" "music_player" {}
    let genre := params.genre.getD "classique"
    let rGenre := executeAction dm orc "play_genre" "music_player"
      { genre := some genre }
    let vol := params.volume.getD 20
    let rVol := executeAction dm orc "set_volume" "music_player"
      { volume := some vol }
    let results := [("lights", rLights), ("music", rMusic),
      ("genre", rGenre), ("volume", rVol)]
    { success := allSucceeded results, results := results }
  else if name = "all_off" then
    let results := dm.registry.map
      (fun dt => (dt, executeAction dm orc "turn_off" dt {}))
    { success := allSucceeded results, results := results }
  else
    { success := false,
      error := some ("Scenario non pris en charge: " ++ name) }

/-! Concrete fixtures used to instantiate the theorems below. -/

/-- A concrete engine configuration matching the end-to-end scenario of the
spec (section 8): threshold `0.6`, rule table sending `"manger"` to
`["diffuser_musique"]`, playlists keyed `"repas"`/`"ambiance"`. -/
def cfgA : EngineConfig :=
  { decision_rules :=
      [("manger", ["diffuser_musique"]), ("default", ["engager_conversation"])]
    threshold_confidence := 6/10
    learning_rate := 1/100
    user_feedback_weight := 1/2
    playlists := [("repas", "playlist_repas"), ("ambiance", "playlist_ambiance")]
    conversation_max_turns := 5 }

/-- A fresh engine state with the placeholder profile loaded and no history. -/
def stA : EngineState :=
  { user_profile := some (loadUserProfile "user1")
    last_recommendations := none
    recommendation_history := [] }

/-- A concrete device oracle: every command succeeds, program search finds
nothing, and the status fetch fails (its dict carries an `"error"` key). -/
def orcA : DeviceOracle :=
  { turnOn := fun _ => true
    turnOff := fun _ => true
    getStatus := fun _ => [("error", Value.str "Status code: 500")]
    changeChannel := fun _ => true
    tvSetVolume := fun _ => true
    getChannels := []
    searchPrograms := fun _ _ => []
    playProgram := fun _ => true
    playPlaylist := fun _ => true
    musicSetVolume := fun _ => true
    playGenre := fun _ => true
    setScene := fun _ => true
    setAllLights := fun _ => true }

/-- A concrete device manager with a TV and lights registered. -/
def dmA : DeviceManager :=
  { registry := ["tv", "lights"], playlists := [] }

/-- A concrete batch whose single candidate is `raconter_histoire`. -/
def batchA : Batch :=
  { id := none, timestamp := "t0", activity := "inactif", confidence := 1
    recommendations :=
      [{ type := "raconter_histoire", priority := 8/10, params := [] }] }

/-! Supporting lemmas. -/

/-- The pair returned by `analyzeActivity` is the two extracted fields with
their defaults. -/
theorem analyzeActivity_fst (now : String) (st : EngineState)
    (d : ActivityData) :
    (analyzeActivity now st d).1 = (d.activity.getD "inconnu", d.confidence.getD 0) :=
  rfl

/-- `analyzeActivity` does not touch the recommendation history. -/
theorem analyzeActivity_history (now : String) (st : EngineState)
    (d : ActivityData) :
    (analyzeActivity now st d).2.recommendation_history =
      st.recommendation_history := by
  unfold analyzeActivity
  cases st.user_profile <;> rfl

/-- The recommendation list returned by `getRecommendations` is the pipeline
of lines 129-145 applied to the resolved activity of lines 119-124. -/
theorem getRecommendations_fst (cfg : EngineConfig) (now : String)
    (ctx : TimeContext) (choice : List String → String) (st : EngineState)
    (d : ActivityData) :
    (getRecommendations cfg now ctx choice st d).1 =
      recommendFrom cfg ctx choice (analyzeActivity now st d).2
        (if d.confidence.getD 0 < cfg.threshold_confidence then "default"
         else d.activity.getD "inconnu") :=
  rfl

/-- Every entry of the base-priority table lies in `[0.4, 0.9]`. -/
theorem basePriority_bounds (t : String) :
    4/10 ≤ basePriority t ∧ basePriority t ≤ 9/10 := by
  unfold basePriority
  split_ifs <;> norm_num

/-- The decayed priority is never below the floor `0.1`. -/
theorem priorityAfterDecay_ge (history : List Batch) (recType : String) :
    1/10 ≤ priorityAfterDecay history recType := by
  have hb := (basePriority_bounds recType).1
  simp only [priorityAfterDecay]
  split_ifs with h1 h2
  · exact le_max_left _ _
  · linarith
  · linarith

/-- The decayed priority is a function of the occurrence count of the type
among the last 3 stored batches. -/
theorem priorityAfterDecay_eq_decayedAt (history : List Batch)
    (recType : String) :
    priorityAfterDecay history recType =
      decayedAt (basePriority recType) ((recentTypes history).count recType) := by
  simp only [priorityAfterDecay, decayedAt]
  by_cases h1 : history.length > 0
  · rw [if_pos h1]
    by_cases h2 : recType ∈ recentTypes history
    · rw [if_pos h2, if_neg]
      intro hc
      exact List.count_eq_zero.mp hc h2
    · rw [if_neg h2, if_pos (List.count_eq_zero.mpr h2)]
  · rw [if_neg h1]
    have hnil : history = [] := List.length_eq_zero.mp (by omega)
    subst hnil
    have h0 : List.count recType (recentTypes []) = 0 := rfl
    rw [h0, if_pos rfl]

/-- The morning block is the identity when its guard fails. -/
theorem morningAdjust_eq_self (recs : List String) (act : String)
    (h : act ≠ "inactif" ∨ "suggerer_actualites" ∈ recs) :
    morningAdjust recs act = recs := by
  unfold morningAdjust
  rw [if_neg]
  rintro ⟨h1, h2⟩
  rcases h with h | h
  · exact h h2
  · exact h1 h

/-- After the morning block, either the activity is not `"inactif"` or the
news suggestion is present. -/
theorem morningAdjust_invariant (recs : List String) (act : String) :
    act ≠ "inactif" ∨ "suggerer_actualites" ∈ morningAdjust recs act := by
  unfold morningAdjust
  split_ifs with hc
  · exact Or.inr (by simp)
  · rcases not_and_or.mp hc with h | h
    · exact Or.inr (not_not.mp h)
    · exact Or.inl h

/-- The weekend block is the identity when its guard fails. -/
theorem weekendAdjust_eq_self (recs : List String) (act : String)
    (h : act ≠ "inactif" ∨ "suggerer_activite_exterieure" ∈ recs) :
    weekendAdjust recs act = recs := by
  unfold weekendAdjust
  rw [if_neg]
  rintro ⟨h1, h2⟩
  rcases h with h | h
  · exact h h2
  · exact h1 h

/-- After the weekend block, either the activity is not `"inactif"` or the
outdoor suggestion is present. -/
theorem weekendAdjust_invariant (recs : List String) (act : String) :
    act ≠ "inactif" ∨
      "suggerer_activite_exterieure" ∈ weekendAdjust recs act := by
  unfold weekendAdjust
  split_ifs with hc
  · exact Or.inr (by simp)
  · rcases not_and_or.mp hc with h | h
    · exact Or.inr (not_not.mp h)
    · exact Or.inl h

/-- The weekend block only ever appends its own marker, so membership of any
other string is unchanged. -/
theorem weekendAdjust_mem_iff (recs : List String) (act x : String)
    (hx : x ≠ "suggerer_activite_exterieure") :
    x ∈ weekendAdjust recs act ↔ x ∈ recs := by
  unfold weekendAdjust
  split_ifs with hc
  · simp [hx]
  · exact Iff.rfl

/-- A string occurring at most once is absent after `List.erase`. -/
theorem not_mem_erase_of_count_le_one {a : String} {l : List String}
    (h : l.count a ≤ 1) : a ∉ l.erase a := by
  intro hmem
  have h1 : (l.erase a).count a = l.count a - 1 := List.count_erase_self a l
  have h2 : 0 < (l.erase a).count a := List.count_pos_iff.mpr hmem
  omega

/-- The night block is the identity when both of its guards fail. -/
theorem nightAdjust_eq_self (recs : List String) (act : String)
    (h1 : "diffuser_musique" ∉ recs ∨ act = "manger")
    (h2 : act ≠ "inactif" ∨ "raconter_histoire" ∈ recs) :
    nightAdjust recs act = recs := by
  have hb : (if "diffuser_musique" ∈ recs ∧ act ≠ "manger" then
      recs.erase "diffuser_musique" else recs) = recs := by
    rw [if_neg]
    rintro ⟨hm, hne⟩
    rcases h1 with h | h
    · exact h hm
    · exact hne h
  simp only [nightAdjust]
  rw [hb, if_neg]
  rintro ⟨hm, hact⟩
  rcases h2 with h | h
  · exact h hact
  · exact hm h

/-- After the night block of a list holding `diffuser_musique` at most once:
the music entry is absent (unless the activity is `"manger"`, which disables
the removal), and the story entry is present when the activity is
`"inactif"`. -/
theorem nightAdjust_invariant (recs : List String) (act : String)
    (h : recs.count "diffuser_musique" ≤ 1) :
    ("diffuser_musique" ∉ nightAdjust recs act ∨ act = "manger") ∧
      (act ≠ "inactif" ∨ "raconter_histoire" ∈ nightAdjust recs act) := by
  simp only [nightAdjust]
  by_cases hc1 : "diffuser_musique" ∈ recs ∧ act ≠ "manger"
  · rw [if_pos hc1]
    have hdm := not_mem_erase_of_count_le_one h
    split_ifs with hc2
    · refine ⟨Or.inl ?_, Or.inr (by simp)⟩
      simp only [List.mem_append, List.mem_singleton]
      rintro (hm | hm)
      · exact hdm hm
      · exact absurd hm (by decide)
    · refine ⟨Or.inl hdm, ?_⟩
      rcases not_and_or.mp hc2 with h' | h'
      · exact Or.inr (not_not.mp h')
      · exact Or.inl h'
  · rw [if_neg hc1]
    have hc1' := not_and_or.mp hc1
    split_ifs with hc2
    · constructor
      · rcases hc1' with h' | h'
        · refine Or.inl ?_
          simp only [List.mem_append, List.mem_singleton]
          rintro (hm | hm)
          · exact h' hm
          · exact absurd hm (by decide)
        · exact Or.inr (not_not.mp h')
      · exact Or.inr (by simp)
    · constructor
      · rcases hc1' with h' | h'
        · exact Or.inl h'
        · exact Or.inr (not_not.mp h')
      · rcases not_and_or.mp hc2 with h' | h'
        · exact Or.inr (not_not.mp h')
        · exact Or.inl h'

/-- `replaceFirst` is the identity when the target is absent. -/
theorem replaceFirst_of_not_mem (l : List String) (a b : String)
    (h : a ∉ l) : replaceFirst l a b = l := by
  induction l with
  | nil => rfl
  | cons x xs ih =>
      have h1 : a ≠ x := fun e => h (by rw [e]; exact List.mem_cons_self x xs)
      have h2 : a ∉ xs := fun hm => h (List.mem_cons_of_mem x hm)
      simp only [replaceFirst]
      rw [if_neg (fun e => h1 e.symm), ih h2]

/-- Replacing the first occurrence of `a` by a different string removes
exactly one occurrence of `a`. -/
theorem count_replaceFirst_self (l : List String) (a b : String)
    (hab : a ≠ b) (hm : a ∈ l) :
    (replaceFirst l a b).count a = l.count a - 1 := by
  induction l with
  | nil => simp at hm
  | cons x xs ih =>
      simp only [replaceFirst]
      by_cases hx : x = a
      · subst hx
        rw [if_pos rfl]
        simp [List.count_cons, hab]
      · rw [if_neg hx]
        have hm' : a ∈ xs := by
          rcases List.mem_cons.mp hm with h | h
          · exact absurd h.symm hx
          · exact h
        have hpos : 0 < xs.count a := List.count_pos_iff.mpr hm'
        simp only [List.count_cons, ih hm']
        have hxa : ¬(a = x) := fun e => hx e.symm
        simp [hxa]
        omega

/-- Replacing the first occurrence of `a` by `b` adds exactly one occurrence
of `b` when `a` is present. -/
theorem count_replaceFirst_new (l : List String) (a b : String)
    (hab : a ≠ b) (hm : a ∈ l) :
    (replaceFirst l a b).count b = l.count b + 1 := by
  induction l with
  | nil => simp at hm
  | cons x xs ih =>
      simp only [replaceFirst]
      by_cases hx : x = a
      · subst hx
        simp [List.count_cons, Ne.symm hab]
      · rw [if_neg hx]
        have hm' : a ∈ xs := by
          rcases List.mem_cons.mp hm with h | h
          · exact absurd h.symm hx
          · exact h
        simp only [List.count_cons, ih hm']
        omega

/-- `replaceFirst` does not change the count of any uninvolved string. -/
theorem count_replaceFirst_other (l : List String) (a b c : String)
    (h1 : c ≠ a) (h2 : c ≠ b) :
    (replaceFirst l a b).count c = l.count c := by
  induction l with
  | nil => rfl
  | cons x xs ih =>
      simp only [replaceFirst]
      by_cases hx : x = a
      · subst hx
        simp [List.count_cons, h1, h2]
      · rw [if_neg hx]
        simp only [List.count_cons, ih]

/-! Claim theorems. -/

/-- Claim C1: when the observed confidence (defaulting to 0 when absent) is
strictly below the configured threshold, `getRecommendations` produces its
list from the rule lookup at activity `"default"`, regardless of the input
activity string; otherwise it uses the extracted activity unchanged. -/
theorem c1_low_confidence_uses_default_rules (cfg : EngineConfig)
    (now : String) (ctx : TimeContext) (choice : List String → String)
    (st : EngineState) (d : ActivityData) :
    (d.confidence.getD 0 < cfg.threshold_confidence →
      (getRecommendations cfg now ctx choice st d).1 =
        recommendFrom cfg ctx choice (analyzeActivity now st d).2 "default") ∧
    (cfg.threshold_confidence ≤ d.confidence.getD 0 →
      (getRecommendations cfg now ctx choice st d).1 =
        recommendFrom cfg ctx choice (analyzeActivity now st d).2
          (d.activity.getD "inconnu")) := by
  constructor
  · intro h
    rw [getRecommendations_fst, if_pos h]
  · intro h
    rw [getRecommendations_fst, if_neg (not_lt.mpr h)]

/-- Witness for C1 at a concrete low-confidence observation. -/
theorem c1_low_confidence_witness :
    (getRecommendations cfgA "t" (getTimeContext 8 0 0)
        (fun l => l.headD "") stA
        { activity := some "lire", confidence := some (1/10) }).1 =
      recommendFrom cfgA (getTimeContext 8 0 0) (fun l => l.headD "")
        (analyzeActivity "t" stA
          { activity := some "lire", confidence := some (1/10) }).2
        "default" :=
  (c1_low_confidence_uses_default_rules cfgA "t" (getTimeContext 8 0 0)
    (fun l => l.headD "") stA
    { activity := some "lire", confidence := some (1/10) }).1 (by norm_num [cfgA])

/-- Claim C2: every computed priority lies in `[0.1, 1.0]`. -/
theorem c2_priority_bounds (history : List Batch) (recType activity : String) :
    1/10 ≤ calculatePriority history recType activity ∧
      calculatePriority history recType activity ≤ 1 := by
  have hd := priorityAfterDecay_ge history recType
  unfold calculatePriority
  constructor
  · rw [le_min_iff]
    refine ⟨by norm_num, le_max_of_le_right ?_⟩
    split_ifs <;> linarith
  · exact min_le_left _ _

/-- Claim C3: a type occurring exactly once in each of the last 3 stored
batches has a pre-boost priority of exactly `max 0.1 (base - 0.3)`; the
pre-boost priority is the decay function of the occurrence count, and that
decay is monotonically non-increasing as the count rises from 0 to 3. -/
theorem c3_recency_decay :
    (∀ (history : List Batch) (recType : String),
      (lastN 3 history).length = 3 →
      (∀ b ∈ lastN 3 history,
        (b.recommendations.map (fun r => r.type)).count recType = 1) →
      priorityAfterDecay history recType =
        max (1/10) (basePriority recType - 3/10)) ∧
    (∀ (history : List Batch) (recType : String),
      priorityAfterDecay history recType =
        decayedAt (basePriority recType) ((recentTypes history).count recType)) ∧
    (∀ (recType : String) (c c' : ℕ), c ≤ c' → c' ≤ 3 →
      decayedAt (basePriority recType) c' ≤ decayedAt (basePriority recType) c) := by
  refine ⟨?_, priorityAfterDecay_eq_decayedAt, ?_⟩
  · intro history recType hlen hcount
    obtain ⟨b1, b2, b3, heq⟩ := List.length_eq_three.mp hlen
    have h1 := hcount b1 (by rw [heq]; simp)
    have h2 := hcount b2 (by rw [heq]; simp)
    have h3 := hcount b3 (by rw [heq]; simp)
    have hc : (recentTypes history).count recType = 3 := by
      unfold recentTypes
      rw [heq]
      simp [List.count_append, h1, h2, h3]
    rw [priorityAfterDecay_eq_decayedAt, hc, decayedAt]
    norm_num
  · intro recType c c' hcc _hc3
    have hb := (basePriority_bounds recType).1
    have hcast : (c : ℚ) ≤ (c' : ℚ) := Nat.cast_le.mpr hcc
    by_cases hc0 : c = 0
    · subst hc0
      by_cases hc'0 : c' = 0
      · subst hc'0
        exact le_refl _
      · have e0 : decayedAt (basePriority recType) 0 = basePriority recType := by
          simp [decayedAt]
        have e1 : decayedAt (basePriority recType) c' =
            max (1/10) (basePriority recType - (1/10) * (c' : ℚ)) := by
          simp [decayedAt, hc'0]
        rw [e0, e1]
        have hge : (0 : ℚ) ≤ (c' : ℚ) := Nat.cast_nonneg _
        apply max_le <;> linarith
    · have hc'0 : c' ≠ 0 := by omega
      simp only [decayedAt, if_neg hc0, if_neg hc'0]
      exact max_le_max (le_refl _) (by linarith)

/-- Witness for C3 at a concrete 3-batch history each carrying
`raconter_histoire` exactly once: the decayed priority is `0.5`. -/
theorem c3_recency_decay_witness :
    priorityAfterDecay [batchA, batchA, batchA] "raconter_histoire" =
      max (1/10) (basePriority "raconter_histoire" - 3/10) :=
  c3_recency_decay.1 [batchA, batchA, batchA] "raconter_histoire"
    (by decide) (by decide)

/-- Claim C4: the end-to-end scenario: observation
`{activity: manger, confidence: 0.92}` against threshold `0.6`, rule table
sending `manger` to `[diffuser_musique]`, 08:00 on a Monday, empty history
and the placeholder profile (which prefers `classique`) yields exactly one
candidate, of type `diffuser_musique_classique`, with the playlist
configured under the key `repas`, volume `40` and priority `0.9`. -/
theorem c4_end_to_end_manger (choice : List String → String) :
    (getRecommendations cfgA "2026-01-05T08:00:00" (getTimeContext 8 0 0)
        choice stA { activity := some "manger", confidence := some (92/100) }).1 =
      [{ type := "diffuser_musique_classique", priority := 9/10,
         params := [("genre", Value.str (choice ["classique"])),
                    ("playlist", Value.str "playlist_repas"),
                    ("volume", Value.num 40)] }] ∧
    cfgA.playlists.lookup "repas" = some "playlist_repas" := by
  constructor
  · have hpri : calculatePriority [] "diffuser_musique_classique" "manger" =
        9/10 := by
      have h : calculatePriority [] "diffuser_musique_classique" "manger" =
          min 1 (max 0 ((7 : ℚ)/10 + 2/10)) := rfl
      rw [h]
      norm_num
    have h0 : ¬((ActivityData.mk (some "manger")
        (some (92/100))).confidence.getD 0 < cfgA.threshold_confidence) := by
      norm_num [cfgA, Option.getD]
    rw [getRecommendations_fst, if_neg h0]
    have hstep : recommendFrom cfgA (getTimeContext 8 0 0) choice
        (analyzeActivity "2026-01-05T08:00:00" stA
          (ActivityData.mk (some "manger") (some (92/100)))).2
        ((ActivityData.mk (some "manger")
          (some (92/100))).activity.getD "inconnu") =
        [{ type := "diffuser_musique_classique",
           priority := calculatePriority [] "diffuser_musique_classique" "manger",
           params := [("genre", Value.str (choice ["classique"])),
                      ("playlist", Value.str "playlist_repas"),
                      ("volume", Value.num 40)] }] := rfl
    rw [hstep, hpri]
  · rfl

/-- Claim C5 counterexample: the adjustment pass is not idempotent on every
candidate list.  With two copies of `diffuser_musique` at night under
activity `inactif`, the first pass removes only the first copy (Python
`list.remove`), the second pass removes the other: the candidate set after
two passes differs from the set after one. -/
theorem c5_adjust_not_idempotent_on_duplicates :
    "diffuser_musique" ∈
      adjustForContext ["diffuser_musique", "diffuser_musique"]
        (getTimeContext 23 0 2) "inactif" ∧
    "diffuser_musique" ∉
      adjustForContext
        (adjustForContext ["diffuser_musique", "diffuser_musique"]
          (getTimeContext 23 0 2) "inactif")
        (getTimeContext 23 0 2) "inactif" := by
  decide

/-- Claim C5 (amended): the context-adjustment pass is idempotent on every
candidate list in which `diffuser_musique` occurs at most once (in
particular on every duplicate-free list): applied twice to the same
`(candidates, timeContext, activity)` it returns exactly the list the first
application produced. -/
theorem c5_adjust_idempotent_amended (recs : List String)
    (ctx : TimeContext) (act : String)
    (h : recs.count "diffuser_musique" ≤ 1) :
    adjustForContext (adjustForContext recs ctx act) ctx act =
      adjustForContext recs ctx act := by
  by_cases hn : ctx.time_of_day = "night"
  · have e : ∀ rs : List String, adjustForContext rs ctx act =
        if ctx.weekend then weekendAdjust (nightAdjust rs act) act
        else nightAdjust rs act := by
      intro rs
      simp only [adjustForContext]
      rw [if_pos hn]
    have hinv := nightAdjust_invariant recs act h
    by_cases hw : ctx.weekend
    · rw [e, e, if_pos hw, if_pos hw]
      have hinv1 : "diffuser_musique" ∉
          weekendAdjust (nightAdjust recs act) act ∨ act = "manger" := by
        rcases hinv.1 with h' | h'
        · exact Or.inl (fun hm =>
            h' ((weekendAdjust_mem_iff _ _ _ (by decide)).mp hm))
        · exact Or.inr h'
      have hinv2 : act ≠ "inactif" ∨
          "raconter_histoire" ∈ weekendAdjust (nightAdjust recs act) act := by
        rcases hinv.2 with h' | h'
        · exact Or.inl h'
        · exact Or.inr
            ((weekendAdjust_mem_iff _ _ _ (by decide)).mpr h')
      rw [nightAdjust_eq_self _ _ hinv1 hinv2]
      exact weekendAdjust_eq_self _ _ (weekendAdjust_invariant _ _)
    · rw [e, e, if_neg hw, if_neg hw]
      exact nightAdjust_eq_self _ _ hinv.1 hinv.2
  · by_cases hm : ctx.time_of_day = "morning"
    · have e : ∀ rs : List String, adjustForContext rs ctx act =
          if ctx.weekend then weekendAdjust (morningAdjust rs act) act
          else morningAdjust rs act := by
        intro rs
        simp only [adjustForContext]
        rw [if_neg hn, if_pos hm]
      have hinv := morningAdjust_invariant recs act
      by_cases hw : ctx.weekend
      · rw [e, e, if_pos hw, if_pos hw]
        have hinv' : act ≠ "inactif" ∨ "suggerer_actualites" ∈
            weekendAdjust (morningAdjust recs act) act := by
          rcases hinv with h' | h'
          · exact Or.inl h'
          · exact Or.inr
              ((weekendAdjust_mem_iff _ _ _ (by decide)).mpr h')
        rw [morningAdjust_eq_self _ _ hinv']
        exact weekendAdjust_eq_self _ _ (weekendAdjust_invariant _ _)
      · rw [e, e, if_neg hw, if_neg hw]
        exact morningAdjust_eq_self _ _ hinv
    · have e : ∀ rs : List String, adjustForContext rs ctx act =
          if ctx.weekend then weekendAdjust rs act else rs := by
        intro rs
        simp only [adjustForContext]
        rw [if_neg hn, if_neg hm]
      by_cases hw : ctx.weekend
      · rw [e, e, if_pos hw, if_pos hw]
        exact weekendAdjust_eq_self _ _ (weekendAdjust_invariant _ _)
      · rw [e, e, if_neg hw, if_neg hw]

/-- Witness for the amended C5 at a concrete duplicate-free list. -/
theorem c5_adjust_idempotent_witness :
    adjustForContext
        (adjustForContext ["diffuser_musique"] (getTimeContext 23 0 2)
          "inactif")
        (getTimeContext 23 0 2) "inactif" =
      adjustForContext ["diffuser_musique"] (getTimeContext 23 0 2)
        "inactif" :=
  c5_adjust_idempotent_amended ["diffuser_musique"] (getTimeContext 23 0 2)
    "inactif" (by decide)

/-- Claim C6 counterexample: substitution is not exclusive on every
candidate list.  With a duplicated `recommander_programme`, only the first
copy is replaced, so the generic type is still present; with
`diffuser_musique_classique` already present next to `diffuser_musique`,
the specific variant ends up present twice. -/
theorem c6_substitution_not_exclusive_counterexample :
    "recommander_programme" ∈
      personalizeRecommendations (loadUserProfile "u")
        ["recommander_programme", "recommander_programme",
         "diffuser_musique_classique", "diffuser_musique"] ∧
    (personalizeRecommendations (loadUserProfile "u")
        ["recommander_programme", "recommander_programme",
         "diffuser_musique_classique", "diffuser_musique"]).count
      "diffuser_musique_classique" = 2 := by
  decide

/-- Claim C6 (amended): for candidate lists in which the generic type occurs
at most once and the specific variant is absent, the substitution is
exclusive: when the preference precondition holds the generic type is absent
afterwards and the specific variant occurs exactly once; when the
precondition fails, the occurrences of the generic type are unchanged. -/
theorem c6_substitution_exclusive_amended (p : UserProfile)
    (recs : List String) :
    (("recommander_programme" ∈ recs ∧
        "documentaires" ∈ p.preferences.tv_programs ∧
        recs.count "recommander_programme" ≤ 1 ∧
        "recommander_documentaire" ∉ recs) →
      "recommander_programme" ∉ personalizeRecommendations p recs ∧
        (personalizeRecommendations p recs).count
          "recommander_documentaire" = 1) ∧
    (¬("recommander_programme" ∈ recs ∧
        "documentaires" ∈ p.preferences.tv_programs) →
      (personalizeRecommendations p recs).count "recommander_programme" =
        recs.count "recommander_programme") ∧
    (("diffuser_musique" ∈ recs ∧
        "classique" ∈ p.preferences.music_genres ∧
        recs.count "diffuser_musique" ≤ 1 ∧
        "diffuser_musique_classique" ∉ recs) →
      "diffuser_musique" ∉ personalizeRecommendations p recs ∧
        (personalizeRecommendations p recs).count
          "diffuser_musique_classique" = 1) ∧
    (¬("diffuser_musique" ∈ recs ∧
        "classique" ∈ p.preferences.music_genres) →
      (personalizeRecommendations p recs).count "diffuser_musique" =
        recs.count "diffuser_musique") := by
  simp only [personalizeRecommendations]
  by_cases hc1 : "recommander_programme" ∈ recs ∧
      "documentaires" ∈ p.preferences.tv_programs
  · rw [if_pos hc1]
    have hdm1 : (replaceFirst recs "recommander_programme"
        "recommander_documentaire").count "diffuser_musique" =
        recs.count "diffuser_musique" :=
      count_replaceFirst_other _ _ _ _ (by decide) (by decide)
    have hmem1 : "diffuser_musique" ∈ replaceFirst recs
        "recommander_programme" "recommander_documentaire" ↔
        "diffuser_musique" ∈ recs := by
      rw [← List.count_pos_iff, hdm1, List.count_pos_iff]
    refine ⟨?_, ?_, ?_, ?_⟩
    · rintro ⟨_, _, hle, habs⟩
      have hrp : (replaceFirst recs "recommander_programme"
          "recommander_documentaire").count "recommander_programme" = 0 := by
        rw [count_replaceFirst_self _ _ _ (by decide) hc1.1]
        have := List.count_pos_iff.mpr hc1.1
        omega
      have hrd : (replaceFirst recs "recommander_programme"
          "recommander_documentaire").count "recommander_documentaire" = 1 := by
        rw [count_replaceFirst_new _ _ _ (by decide) hc1.1]
        have h0 : recs.count "recommander_documentaire" = 0 :=
          List.count_eq_zero.mpr habs
        omega
      split_ifs with hc2
      · constructor
        · intro hmem
          have hpos := List.count_pos_iff.mpr hmem
          rw [count_replaceFirst_other _ _ _ _ (by decide) (by decide),
            hrp] at hpos
          omega
        · rw [count_replaceFirst_other _ _ _ _ (by decide) (by decide)]
          exact hrd
      · constructor
        · intro hmem
          have hpos := List.count_pos_iff.mpr hmem
          rw [hrp] at hpos
          omega
        · exact hrd
    · intro hnc
      exact absurd hc1 hnc
    · rintro ⟨hdme, hcl, hle, habs⟩
      have hdmc0 : (replaceFirst recs "recommander_programme"
          "recommander_documentaire").count "diffuser_musique_classique" =
          recs.count "diffuser_musique_classique" :=
        count_replaceFirst_other _ _ _ _ (by decide) (by decide)
      rw [if_pos ⟨hmem1.mpr hdme, hcl⟩]
      constructor
      · intro hmem
        have hpos := List.count_pos_iff.mpr hmem
        rw [count_replaceFirst_self _ _ _ (by decide) (hmem1.mpr hdme),
          hdm1] at hpos
        omega
      · rw [count_replaceFirst_new _ _ _ (by decide) (hmem1.mpr hdme), hdmc0]
        have h0 : recs.count "diffuser_musique_classique" = 0 :=
          List.count_eq_zero.mpr habs
        omega
    · intro hnc
      have hnc2 : ¬("diffuser_musique" ∈ replaceFirst recs
          "recommander_programme" "recommander_documentaire" ∧
          "classique" ∈ p.preferences.music_genres) := by
        rintro ⟨hmem, hcl⟩
        exact hnc ⟨hmem1.mp hmem, hcl⟩
      rw [if_neg hnc2]
      exact hdm1
  · rw [if_neg hc1]
    refine ⟨?_, ?_, ?_, ?_⟩
    · rintro ⟨hmem, hdoc, _, _⟩
      exact absurd ⟨hmem, hdoc⟩ hc1
    · intro _
      split_ifs with hc2
      · exact count_replaceFirst_other _ _ _ _ (by decide) (by decide)
      · rfl
    · rintro ⟨hdme, hcl, hle, habs⟩
      rw [if_pos ⟨hdme, hcl⟩]
      constructor
      · intro hmem
        have hpos := List.count_pos_iff.mpr hmem
        rw [count_replaceFirst_self _ _ _ (by decide) hdme] at hpos
        omega
      · rw [count_replaceFirst_new _ _ _ (by decide) hdme]
        have h0 : recs.count "diffuser_musique_classique" = 0 :=
          List.count_eq_zero.mpr habs
        omega
    · intro hnc
      rw [if_neg hnc]

/-- Witness for the amended C6: a single generic entry is replaced by the
specific variant exactly once under the placeholder profile. -/
theorem c6_substitution_witness :
    "recommander_programme" ∉
      personalizeRecommendations (loadUserProfile "u")
        ["recommander_programme"] ∧
    (personalizeRecommendations (loadUserProfile "u")
        ["recommander_programme"]).count "recommander_documentaire" = 1 :=
  (c6_substitution_exclusive_amended (loadUserProfile "u")
    ["recommander_programme"]).1
    ⟨by decide, by decide, by decide, by decide⟩

/-- Claim C7: when the program search of `movie_time` returns an empty list,
the play step is absent from the per-step result map and the scenario
success flag is the conjunction of the three executed steps only (light
scene, TV turn-on, TV volume). -/
theorem c7_movie_time_skips_play (dm : DeviceManager) (orc : DeviceOracle)
    (params : ScenarioParams) (htv : "tv" ∈ dm.registry)
    (hsearch : orc.searchPrograms
      (truthyOpt (some (params.category.getD "film"))) none = []) :
    (executeScenario dm orc "movie_time" params).results =
      [("lights",
        executeAction dm orc "set_scene" "lights" { scene_name := some "movie" }),
       ("tv", executeAction dm orc "turn_on" "tv" {}),
       ("volume", executeAction dm orc "set_volume" "tv"
         { volume := some (params.volume.getD 50) })] ∧
    ((executeScenario dm orc "movie_time" params).results).lookup "program" =
      none ∧
    (executeScenario dm orc "movie_time" params).success =
      ((executeAction dm orc "set_scene" "lights"
          { scene_name := some "movie" }).success &&
       (executeAction dm orc "turn_on" "tv" {}).success &&
       (executeAction dm orc "set_volume" "tv"
          { volume := some (params.volume.getD 50) }).success) := by
  have hsr : executeAction dm orc "search_programs" "tv"
      { category := some (params.category.getD "film") } =
      { success := true, programs := some [] } := by
    have hq : truthyOpt none = none := rfl
    unfold executeAction
    rw [if_neg (by simpa using htv)]
    simp [hq, hsearch]
  have hall : executeScenario dm orc "movie_time" params =
      { success := allSucceeded
          [("lights", executeAction dm orc "set_scene" "lights"
             { scene_name := some "movie" }),
           ("tv", executeAction dm orc "turn_on" "tv" {}),
           ("volume", executeAction dm orc "set_volume" "tv"
             { volume := some (params.volume.getD 50) })],
        results :=
          [("lights", executeAction dm orc "set_scene" "lights"
             { scene_name := some "movie" }),
           ("tv", executeAction dm orc "turn_on" "tv" {}),
           ("volume", executeAction dm orc "set_volume" "tv"
             { volume := some (params.volume.getD 50) })] } := by
    unfold executeScenario
    rw [if_pos rfl]
    dsimp only
    rw [hsr]
    rfl
  refine ⟨?_, ?_, ?_⟩
  · rw [hall]
  · rw [hall]
    rfl
  · rw [hall]
    simp [allSucceeded, Bool.and_assoc]

/-- Witness for C7: with TV and lights registered, every command succeeding
and a program search that finds nothing, the scenario omits the play step
and reports overall success. -/
theorem c7_movie_time_witness :
    (executeScenario dmA orcA "movie_time"
        { category := some "documentaire" }).results =
      [("lights",
        executeAction dmA orcA "set_scene" "lights" { scene_name := some "movie" }),
       ("tv", executeAction dmA orcA "turn_on" "tv" {}),
       ("volume", executeAction dmA orcA "set_volume" "tv"
         { volume := some 50 })] ∧
    ((executeScenario dmA orcA "movie_time"
        { category := some "documentaire" }).results).lookup "program" =
      none ∧
    (executeScenario dmA orcA "movie_time"
        { category := some "documentaire" }).success =
      ((executeAction dmA orcA "set_scene" "lights"
          { scene_name := some "movie" }).success &&
       (executeAction dmA orcA "turn_on" "tv" {}).success &&
       (executeAction dmA orcA "set_volume" "tv"
          { volume := some 50 }).success) :=
  c7_movie_time_skips_play dmA orcA { category := some "documentaire" }
    (by decide) rfl

/-- Claim C8 counterexample: on an observation with both fields missing,
`analyze` defaults the activity to the string `"inconnu"`, not `"unknown"`
as the claim states. -/
theorem c8_analyze_default_counterexample :
    (analyzeActivity "t"
        { user_profile := none, last_recommendations := none,
          recommendation_history := [] }
        { activity := none, confidence := none }).1 = ("inconnu", 0) ∧
      ("inconnu" : String) ≠ "unknown" := by
  constructor
  · rfl
  · decide

/-- Claim C8 (amended): `analyze` never fails: for every observation it
returns the pair of extracted fields, defaulting a missing activity to
`"inconnu"` and a missing confidence to `0.0`. -/
theorem c8_analyze_total_defaults (now : String) (st : EngineState)
    (d : ActivityData) :
    (analyzeActivity now st d).1 =
      (d.activity.getD "inconnu", d.confidence.getD 0) :=
  rfl

/-- Claim C9: since every stored batch carries no `id`, `processFeedback`
never finds a match and leaves the whole engine state (history, last-batch
cache, active profile) unchanged; and `getRecommendations` only ever appends
batches without an `id`. -/
theorem c9_process_feedback_noop :
    (∀ (st : EngineState) (rid : String) (fb : Feedback),
      (∀ b ∈ st.recommendation_history, b.id = none) →
        processFeedback st rid fb = st) ∧
    (∀ (cfg : EngineConfig) (now : String) (ctx : TimeContext)
        (choice : List String → String) (st : EngineState) (d : ActivityData),
      ∀ b ∈ (getRecommendations cfg now ctx choice st d).2.recommendation_history,
        b ∈ st.recommendation_history ∨ b.id = none) := by
  constructor
  · intro st rid fb h
    unfold processFeedback
    have hfind : st.recommendation_history.find?
        (fun b => b.id = some rid) = none := by
      rw [List.find?_eq_none]
      intro b hb
      simp [h b hb]
    rw [hfind]
  · intro cfg now ctx choice st d b hb
    unfold getRecommendations at hb
    simp only [analyzeActivity_history] at hb
    rcases List.mem_append.mp hb with h1 | h1
    · exact Or.inl h1
    · right
      rw [List.mem_singleton.mp h1]

/-- Witness for C9 at a concrete state holding one id-free batch. -/
theorem c9_process_feedback_witness :
    processFeedback
        { user_profile := some (loadUserProfile "user1"),
          last_recommendations := some batchA,
          recommendation_history := [batchA] }
        "rec-42" { accepted := true } =
      { user_profile := some (loadUserProfile "user1"),
        last_recommendations := some batchA,
        recommendation_history := [batchA] } :=
  c9_process_feedback_noop.1 _ "rec-42" { accepted := true } (by decide)

/-- Claim C10: for every registered device type, a `get_status` action
reports `success = True` and passes the controller status dict through
unchanged, so a failed status fetch (a dict carrying an `"error"` key) is
visible only in the payload, never in the success flag. -/
theorem c10_get_status_always_success (dm : DeviceManager)
    (orc : DeviceOracle) (dt : String) (h : dt ∈ dm.registry) :
    (executeAction dm orc "get_status" dt {}).success = true ∧
      (executeAction dm orc "get_status" dt {}).status =
        some (orc.getStatus dt) := by
  unfold executeAction
  rw [if_neg (by simpa using h)]
  refine ⟨?_, ?_⟩ <;> simp

/-- Witness for C10: a registered TV whose status fetch failed still gets
`success = true`, with the error only inside the payload. -/
theorem c10_get_status_witness :
    (executeAction dmA orcA "get_status" "tv" {}).success = true ∧
      (executeAction dmA orcA "get_status" "tv" {}).status =
        some [("error", Value.str "Status code: 500")] :=
  c10_get_status_always_success dmA orcA "tv" (by decide)

end Angel
